import Mathlib

/-!
Verification of the MyraConnect WebSocket client (`src/whatsapp` layer,
file `myraClient.js` together with `payloadBuilder.js`).

The development shallowly embeds the pending-request bookkeeping of
`MyraWSClient`: the `pendingRequests` map, `handleMessage`,
`resolvePending`, `send`, `connect`, `disconnect` and `handleReconnect`,
plus the payload builders.  JavaScript values that may be a string or a
number (the correlation token field) are modelled by `JsVal`; JS
truthiness is modelled explicitly.  Side effects (event emissions,
logger calls, promise settlements, socket operations) are modelled as an
explicit effect list returned by each step function.
-/

set_option maxRecDepth 4000

namespace MyraConnect

/-- JS value for fields that may hold a string or a number
(`tempId` may exhibit numeric/string type drift). -/
inductive JsVal : Type
  | vstr (s : String)
  | vnum (n : Nat)
  deriving DecidableEq, Repr

/-- String(v) - JS string coercion. -/
def JsVal.toStr : JsVal → String
  | .vstr s => s
  | .vnum n => Nat.repr n

/-- JS truthiness of a value: empty string and 0 are falsy. -/
def JsVal.truthy : JsVal → Bool
  | .vstr s => !(s == "")
  | .vnum n => !(n == 0)

/-- JS truthiness of an optional string field (absent or empty is falsy). -/
def jsTruthyStr : Option String → Bool
  | none => false
  | some s => !(s == "")

/-- JS `a || b` over possibly-absent values: keeps `a` when truthy. -/
def jsOr (a b : Option JsVal) : Option JsVal :=
  match a with
  | some v => if v.truthy then some v else b
  | none => b

/-- One entry of a `content` array: `\x7b type, value \x7d`. -/
structure ContentItem : Type where
  ty : String
  value : String
  deriving DecidableEq, Repr

/-- The `data.message` object of an inbound frame. -/
structure InnerMessage : Type where
  content : List ContentItem
  isCompleted : Option Bool
  deriving DecidableEq, Repr

/-- The `data` object of an inbound frame. -/
structure FrameData : Type where
  conversationId : Option String
  leadingQuestion : Option String
  message : Option InnerMessage
  deriving DecidableEq, Repr

/-- An inbound (already JSON-parsed) WebSocket frame.  The four token
fields are the candidate locations probed by `handleMessage`. -/
structure Frame : Type where
  eventType : String
  data : Option FrameData
  uiTempId : Option JsVal
  topTempId : Option JsVal
  dataUiTempId : Option JsVal
  requestIdHeader : Option String
  deriving DecidableEq, Repr

/-- A `pendingRequests` entry: `\x7b resolve, reject, timestamp,
chatCreated \x7d` (plus `lastMessage`, set later).  The resolve/reject
closures are represented by the key via `Effect.resolveKey` /
`Effect.rejectKey`. -/
structure PendingEntry : Type where
  timestamp : Nat
  chatCreated : Option Frame
  lastMessage : Option Frame
  deriving DecidableEq, Repr

/-- The `pendingRequests` JS `Map`, in insertion order (JS Maps iterate
in insertion order, which the partial-token-match loop relies on). -/
abbrev Table : Type := List (String × PendingEntry)

/-- JS `Map.get` (keyed lookup; `none` models `undefined`). -/
def mapGet (tb : Table) (k : String) : Option PendingEntry :=
  (tb.find? (fun p => p.1 == k)).map (fun p => p.2)

/-- JS `Map.has`. -/
def mapHas (tb : Table) (k : String) : Bool :=
  (mapGet tb k).isSome

/-- JS `Map.set`: replaces in place when the key exists, appends
otherwise. -/
def mapSet (tb : Table) (k : String) (v : PendingEntry) : Table :=
  if mapHas tb k then
    tb.map (fun p => if p.1 == k then (k, v) else p)
  else
    tb ++ [(k, v)]

/-- JS `Map.delete`. -/
def mapDelete (tb : Table) (k : String) : Table :=
  tb.filter (fun p => !(p.1 == k))

/-- Keys of the table, in insertion order
(`Array.from(this.pendingRequests.keys())`). -/
def mapKeys (tb : Table) : List String :=
  tb.map (fun p => p.1)

/-- Helper for `strIncludes`: does `hay` start with `sub`. -/
def listStartsWith : List Char → List Char → Bool
  | _, [] => true
  | [], _ :: _ => false
  | a :: as, b :: bs => a == b && listStartsWith as bs

/-- Helper for `strIncludes`: does `sub` occur inside `hay`. -/
def listHasSub : List Char → List Char → Bool
  | [], sub => sub.isEmpty
  | hay@(_ :: t), sub => listStartsWith hay sub || listHasSub t sub

/-- JS `hay.includes(sub)` on strings. -/
def strIncludes (hay sub : String) : Bool :=
  listHasSub hay.data sub.data

/-- Observable side effects of one step of the client.  Logger call
sites are tagged with a name identifying the site in the source. -/
inductive Effect : Type
  | emit (name : String)
  | log (tag : String)
  | warnUnknownTempId (tempId : String) (pendingKeys : List String)
  | resolveKey (key : String) (response : Frame)
  | rejectKey (key : String) (error : String)
  | resolveCaller
  | rejectCaller (error : String)
  | register (key : String)
  | scheduleTimeout (key : String)
  | wsSend (eventType : String)
  | createSocket (id : Nat)
  | closeSocket
  | scheduleReconnect (delayMs : Nat)
  deriving DecidableEq, Repr

/-- Keys whose pending-promise `resolve` was invoked, with the payloads
they were resolved with. -/
def resolvedPairs (l : List Effect) : List (String × Frame) :=
  l.filterMap (fun e => match e with
    | .resolveKey k r => some (k, r)
    | _ => none)

/-- Keys whose pending-promise `resolve` was invoked. -/
def resolvedKeys (l : List Effect) : List String :=
  (resolvedPairs l).map (fun p => p.1)

/-- Keys whose pending-promise `reject` was invoked. -/
def rejectedKeys (l : List Effect) : List String :=
  l.filterMap (fun e => match e with
    | .rejectKey k _ => some k
    | _ => none)

/-- MyraWSClient.resolvePending (myraClient.js lines 485-555): exact
`Map` lookup, then string-coerced lookup, then substring containment in
either direction over the entries in insertion order; on a miss with a
non-empty table, a warning listing the pending tokens. -/
def resolvePending (tb : Table) (tempId : JsVal) (response : Frame) :
    Table × List Effect :=
  if tempId.truthy = false then
    (tb, [.log "resolvePending.noTempId"])
  else if (match tempId with
            | .vstr s => mapHas tb s
            | .vnum _ => false) then
    -- `Map.has(tempId)`: a numeric tempId never equals a string key
    (mapDelete tb tempId.toStr,
     [.log "resolvePending.exactMatch", .resolveKey tempId.toStr response])
  else if mapHas tb tempId.toStr then
    (mapDelete tb tempId.toStr,
     [.log "resolvePending.stringMatch", .resolveKey tempId.toStr response])
  else
    match tb.find? (fun p =>
        strIncludes p.1 tempId.toStr || strIncludes tempId.toStr p.1) with
    | some p =>
      (mapDelete tb p.1,
       [.log "resolvePending.partialMatch", .resolveKey p.1 response])
    | none =>
      if tb.isEmpty then
        (tb, [.log "resolvePending.noPending"])
      else
        (tb, [.warnUnknownTempId tempId.toStr (mapKeys tb)])

/-- Token extraction in handleMessage (lines 236-240):
`message.uiMetadata?.tempId || message.tempId ||
message.data?.uiMetadata?.tempId || message.headers?.["request-id"]`,
then `rawTempId ? String(rawTempId) : null`. -/
def extractTempId (m : Frame) : Option String :=
  match jsOr m.uiTempId
      (jsOr m.topTempId
        (jsOr m.dataUiTempId (m.requestIdHeader.map .vstr))) with
  | some v => if v.truthy then some v.toStr else none
  | none => none

/-- The `message.data?.message?.content || []` list. -/
def frameContent (m : Frame) : List ContentItem :=
  (((m.data.bind (fun d => d.message)).map (fun im => im.content))).getD []

/-- The `message.data?.conversationId` field. -/
def frameConvId (m : Frame) : Option String :=
  m.data.bind (fun d => d.conversationId)

/-- The `message.data?.leadingQuestion` field. -/
def frameLeadingQ (m : Frame) : Option String :=
  m.data.bind (fun d => d.leadingQuestion)

/-- Line 297: does the content list hold a loading marker. -/
def hasLoaderText (m : Frame) : Bool :=
  (frameContent m).any (fun c => c.ty == "LOADER_TEXT")

/-- Lines 299-301: does the content list hold a substantive marker. -/
def hasActualContent (m : Frame) : Bool :=
  (frameContent m).any (fun c =>
    c.ty == "TEXT" || c.ty == "CARD" || c.ty == "LIST")

/-- Line 302: `!!message.data?.leadingQuestion`. -/
def hasLeadingQuestion (m : Frame) : Bool :=
  jsTruthyStr (frameLeadingQ m)

/-- Line 298: `message.data?.message?.isCompleted === true`.  Computed
by the source but never consulted by the finality decision. -/
def frameIsCompleted (m : Frame) : Bool :=
  ((m.data.bind (fun d => d.message)).bind (fun im => im.isCompleted))
    == some true

/-- Assignment `message.data.conversationId = v` after the defaulting
`message.data = message.data || \x7b\x7d`. -/
def setConvId (d : Option FrameData) (c : Option String) : FrameData :=
  { d.getD ⟨none, none, none⟩ with conversationId := c }

/-- Lines 286-293: merge of a stored NEW_CHAT_CREATED event into a
NEW_MESSAGE frame that lacks a truthy `conversationId`. -/
def mergeChatCreated (m : Frame) (e : PendingEntry) : Frame :=
  match e.chatCreated with
  | some cc =>
    if !(jsTruthyStr (frameConvId m)) && jsTruthyStr (frameConvId cc) then
      { m with data := some (setConvId m.data (frameConvId cc)) }
    else m
  | none => m

/-- NEW_MESSAGE branch of handleMessage (lines 284-341) once a pending
entry was found for the extracted token: merge, store `lastMessage`,
then the loader-only / actual-content / defensive trichotomy. -/
def hmNewMessageMatched (tb : Table) (m : Frame) (t : String)
    (e : PendingEntry) : Table × List Effect :=
  let m2 := mergeChatCreated m e
  let tb1 := mapSet tb t { e with lastMessage := some m2 }
  let mergeLog :=
    if e.chatCreated.isSome then [Effect.log "mergingChatCreated"] else []
  if hasLoaderText m2 && !(hasActualContent m2) && !(hasLeadingQuestion m2)
  then
    (tb1, mergeLog ++ [Effect.log "skipLoaderOnly"])
  else if hasActualContent m2 || hasLeadingQuestion m2 then
    let r := resolvePending tb1 (.vstr t) m2
    (r.1, mergeLog ++ [Effect.log "resolvingActualContent"] ++ r.2)
  else
    let r := resolvePending tb1 (.vstr t) m2
    (r.1, mergeLog ++ [Effect.log "resolvingNoClearContent"] ++ r.2)

/-- MyraWSClient.handleMessage (myraClient.js lines 231-370), acting on
the `pendingRequests` map (its only state), for an already-parsed frame
(the surrounding JSON-parse try/catch only logs on failure). -/
def handleMessage (tb : Table) (m : Frame) : Table × List Effect :=
  let base := [Effect.log "receivedMessage"] ++
    (if m.eventType = "HEART_BEAT" then [] else
      [Effect.log "fullResponseDebug"]) ++
    [Effect.emit "message"]
  if m.eventType = "NEW_CHAT_CREATED" then
    match extractTempId m with
    | some t =>
      match mapGet tb t with
      | some e =>
        (mapSet tb t { e with chatCreated := some m },
         base ++ [Effect.emit "chatCreated",
                  Effect.log "waitingForNewMessage"])
      | none => (tb, base ++ [Effect.emit "chatCreated"])
    | none => (tb, base ++ [Effect.emit "chatCreated"])
  else if m.eventType = "NEW_MESSAGE" then
    match extractTempId m with
    | some t =>
      match mapGet tb t with
      | some e =>
        let r := hmNewMessageMatched tb m t e
        (r.1, base ++ [Effect.emit "newMessage"] ++ r.2)
      | none =>
        (tb, base ++ [Effect.emit "newMessage",
                      Effect.log "noPendingForResponse"])
    | none =>
      (tb, base ++ [Effect.emit "newMessage",
                    Effect.log "noPendingForResponse"])
  else
    match extractTempId m with
    | some t =>
      match mapGet tb t with
      | some _ =>
        let r := resolvePending tb (.vstr t) m
        (r.1, base ++ [Effect.log "unhandledEventType",
                       Effect.log "resolvingUnhandledEventType"] ++ r.2)
      | none => (tb, base ++ [Effect.log "unhandledEventType"])
    | none => (tb, base ++ [Effect.log "unhandledEventType"])

/-- The timeout closure scheduled in `send` (lines 425-436): when it
fires while the token is still in the map, the entry is deleted and the
caller is rejected with a timeout error. -/
def fireTimeout (tb : Table) (t : String) : Table × List Effect :=
  if mapHas tb t then
    (mapDelete tb t,
     [.log "requestTimeout",
      .rejectKey t "Request timeout - Myra did not respond"])
  else
    (tb, [])

/-- A `ws` WebSocket object: identity plus `readyState`
(0 CONNECTING, 1 OPEN, 2 CLOSING, 3 CLOSED). -/
structure Socket : Type where
  id : Nat
  readyState : Nat
  deriving DecidableEq, Repr

/-- The mutable fields of `MyraWSClient` (constructor, lines 172-181).
`nextSocketId` is the model allocator for `new WebSocket(...)`;
`heartbeatOn` models whether the heartbeat interval timer is set. -/
structure ClientState : Type where
  ws : Option Socket
  isConnected : Bool
  reconnectAttempts : Nat
  maxReconnectAttempts : Nat
  reconnectDelay : Nat
  heartbeatOn : Bool
  pendingRequests : Table
  nextSocketId : Nat
  deriving DecidableEq, Repr

/-- MyraWSClient.connect (lines 187-225): when already connected the
promise resolves immediately with no side effect; otherwise a fresh
WebSocket is created and stored in `this.ws` unconditionally, replacing
any previous (possibly still-connecting) socket.  The open/close/error
handlers are the other step functions of this model. -/
def connect (s : ClientState) : ClientState × List Effect :=
  if s.isConnected then
    (s, [.resolveCaller])
  else
    ({ s with ws := some ⟨s.nextSocketId, 0⟩,
              nextSocketId := s.nextSocketId + 1 },
     [.log "connecting", .createSocket s.nextSocketId])

/-- MyraWSClient.disconnect (lines 626-634): stop the heartbeat, close
and null the socket, clear the connected flag and clear the pending
map.  No pending promise is settled. -/
def disconnect (s : ClientState) : ClientState × List Effect :=
  ({ s with heartbeatOn := false, ws := none, isConnected := false,
            pendingRequests := [] },
   if s.ws.isSome then [.closeSocket] else [])

/-- MyraWSClient.handleReconnect (lines 604-621): once the attempt
counter reaches the maximum, log, emit the terminal event and return;
otherwise increment the counter and schedule a reconnect after
`reconnectDelay * attemptNumber`. -/
def handleReconnect (s : ClientState) : ClientState × List Effect :=
  if s.maxReconnectAttempts ≤ s.reconnectAttempts then
    (s, [.log "maxReconnectReached", .emit "maxReconnectReached"])
  else
    ({ s with reconnectAttempts := s.reconnectAttempts + 1 },
     [.log "reconnectingIn",
      .scheduleReconnect (s.reconnectDelay * (s.reconnectAttempts + 1))])

/-- The `uiMetadata` object of an outbound payload. -/
structure PayloadUiMetadata : Type where
  tempId : String
  clientTraceId : String
  deriving DecidableEq, Repr

/-- The `data.context` object of an outbound payload. -/
structure PayloadContext : Type where
  lob : String
  lobCategory : Option String
  view : String
  prevPage : Option String
  platform : String
  deriving DecidableEq, Repr

/-- The `data.botMetadata` object of an outbound payload. -/
structure BotMetadata : Type where
  conversationId : Option String
  deriving DecidableEq, Repr

/-- The `data.message` object of an outbound payload. -/
structure OutMessage : Type where
  isDraft : Bool
  lang : String
  id : String
  content : List ContentItem
  role : String
  deriving DecidableEq, Repr

/-- The `data` object of an outbound payload (the static
`contextMetadata`/`expertMetadata` literals carry no state read by the
client and are represented by their presence). -/
structure PayloadData : Type where
  context : PayloadContext
  botMetadata : Option BotMetadata
  message : Option OutMessage
  messageSource : Option String
  deriving DecidableEq, Repr

/-- Headers from payloadBuilder.buildHeaders (lines 13-36).  The uuid
draws and config reads are passed in as arguments; the remaining fields
are the literal constants of the source. -/
structure Headers : Type where
  requestId : String
  sessionId : String
  journeyId : String
  org : String
  uuid : String
  profileType : String
  deviceId : String
  deviceType : String
  platform : String
  os : String
  osVersion : String
  timezone : String
  lang : String
  contentType : String
  uiVersion : String
  travelplexPage : String
  test : String
  trafficSource : String
  selectedSttLanguage : String
  supportedNodes : String
  deriving DecidableEq, Repr

/-- An outbound payload envelope. -/
structure Payload : Type where
  eventType : String
  uiMetadata : Option PayloadUiMetadata
  data : PayloadData
  headers : Headers
  deriving DecidableEq, Repr

/-- payloadBuilder.buildHeaders: the generated request id, the
configured (or generated) session, journey and device ids and the
configured org are parameters; everything else is literal. -/
def buildHeaders (requestId sessionId journeyId deviceId org : String) :
    Headers :=
  { requestId := requestId, sessionId := sessionId,
    journeyId := journeyId, org := org, uuid := "",
    profileType := "PERSONAL", deviceId := deviceId,
    deviceType := "pwa", platform := "pwa", os := "WhatsApp Bot",
    osVersion := "1.0.0", timezone := "Asia/Kolkata", lang := "en",
    contentType := "application/json", uiVersion := "travelplex_newUI",
    travelplexPage := "chat:home_page|travelplex", test := "travelplex",
    trafficSource := "myra", selectedSttLanguage := "en-IN",
    supportedNodes := "multiLanguageSupported:true" }

/-- payloadBuilder.buildNewChatPayload (lines 44-87).  `now` is the
`Date.now()` reading; the correlation token `tempId` is its decimal
string.  The unused `userId` parameter of the source is omitted. -/
def buildNewChatPayload (message : String) (now : Nat) (hdrs : Headers) :
    Payload :=
  { eventType := "NEW_CHAT",
    uiMetadata := some
      { tempId := Nat.repr now, clientTraceId := Nat.repr now ++ "-4" },
    data :=
      { context := { lob := "COMMONS", lobCategory := some "COMMONS",
                     view := "my_account_landing", prevPage := none,
                     platform := "pwa" },
        botMetadata := some { conversationId := none },
        message := some
          { isDraft := true, lang := "en-IN", id := Nat.repr now,
            content := [{ ty := "TEXT", value := message }],
            role := "USER" },
        messageSource := some "TEXT" },
    headers := hdrs }

/-- payloadBuilder.buildPostMessagePayload (lines 95-129). -/
def buildPostMessagePayload (conversationId message : String) (now : Nat)
    (hdrs : Headers) : Payload :=
  { eventType := "POST_MESSAGE",
    uiMetadata := some
      { tempId := Nat.repr now, clientTraceId := Nat.repr now ++ "-4" },
    data :=
      { context := { lob := "COMMONS", lobCategory := some "COMMONS",
                     view := "chat", prevPage := none,
                     platform := "pwa" },
        botMetadata := some { conversationId := some conversationId },
        message := some
          { isDraft := true, lang := "en-IN", id := Nat.repr now,
            content := [{ ty := "TEXT", value := message }],
            role := "USER" },
        messageSource := some "TEXT" },
    headers := hdrs }

/-- payloadBuilder.buildHeartbeatPayload (lines 135-148): no
`uiMetadata`, hence no correlation token. -/
def buildHeartbeatPayload (hdrs : Headers) : Payload :=
  { eventType := "HEART_BEAT",
    uiMetadata := none,
    data :=
      { context := { lob := "COMMONS", lobCategory := none,
                     view := "LISTING", prevPage := none,
                     platform := "pwa" },
        botMetadata := none, message := none, messageSource := none },
    headers := hdrs }

/-- The correlation token of an outbound payload
(`payload.uiMetadata?.tempId`). -/
def tempIdOfPayload (p : Payload) : Option String :=
  p.uiMetadata.map (fun md => md.tempId)

/-- MyraWSClient.send (lines 377-477), synchronous part up to and
including `ws.send`: fail fast when not connected or the socket is not
OPEN; otherwise register the token (stringified) in `pendingRequests`
and schedule its timeout BEFORE handing the frame to the socket.  The
asynchronous send callback is modelled separately
(`sendCallbackError`); on success with no token the promise resolves
immediately (`Effect.resolveCaller`). -/
def send (s : ClientState) (p : Payload) (now : Nat) :
    ClientState × List Effect :=
  if s.isConnected = false then
    (s, [.log "cannotSendNotConnected",
         .rejectCaller "WebSocket not connected"])
  else if ((s.ws.map (fun w => w.readyState)).getD 3) ≠ 1 then
    (s, [.log "cannotSendNotOpen",
         .rejectCaller "WebSocket not ready"])
  else
    match tempIdOfPayload p with
    | some t =>
      if t == "" then
        -- falsy tempId: nothing is registered, the send callback
        -- resolves the promise immediately
        (s, [.log "sendingToMyra", .wsSend p.eventType, .resolveCaller])
      else
        ({ s with pendingRequests :=
            mapSet s.pendingRequests t ⟨now, none, none⟩ },
         [.register t, .log "storedPendingRequest", .scheduleTimeout t,
          .log "sendingToMyra", .wsSend p.eventType])
    | none =>
      (s, [.log "sendingToMyra", .wsSend p.eventType, .resolveCaller])

/-- The `ws.send` error callback (lines 457-463): drop the registered
entry and reject the caller. -/
def sendCallbackError (s : ClientState) (p : Payload) :
    ClientState × List Effect :=
  match tempIdOfPayload p with
  | some t =>
    ({ s with pendingRequests := mapDelete s.pendingRequests t },
     [.log "sendError", .rejectCaller "send error"])
  | none => (s, [.log "sendError", .rejectCaller "send error"])

/-- MyraWSClient.newChat (lines 562-565): build the NEW_CHAT payload
and hand it straight to `send` - no connectivity check of its own. -/
def newChat (s : ClientState) (message : String) (now : Nat)
    (hdrs : Headers) : ClientState × List Effect :=
  send s (buildNewChatPayload message now hdrs) now

/-- MyraWSClient.postMessage (lines 573-576). -/
def postMessage (s : ClientState) (conversationId message : String)
    (now : Nat) (hdrs : Headers) : ClientState × List Effect :=
  send s (buildPostMessagePayload conversationId message now hdrs) now

/-- Modelled from the claim wording of C4 (spec section 4.4): matching
is attempted in this order, stopping at the first success - exact
string equality, string-coerced equality, substring containment in
either direction.  Compared against `resolvePending` below. -/
def specMatch (tb : Table) (tempId : JsVal) : Option String :=
  match (match tempId with
         | .vstr s => if mapHas tb s then some s else none
         | .vnum _ => none) with
  | some k => some k
  | none =>
    if mapHas tb tempId.toStr then some tempId.toStr
    else
      (tb.find? (fun p =>
        strIncludes p.1 tempId.toStr ||
          strIncludes tempId.toStr p.1)).map (fun p => p.1)

/-- Folding a sequence of `resolvePending` calls, collecting all
effects (used for the at-most-once resolution property). -/
def runResolves (tb : Table) : List (JsVal × Frame) → Table × List Effect
  | [] => (tb, [])
  | c :: rest =>
    let r1 := resolvePending tb c.1 c.2
    let r2 := runResolves r1.1 rest
    (r2.1, r1.2 ++ r2.2)

/-- Little-endian decimal digit characters of a number: a reference
specification used to reason about `Nat.repr` (the model of JS
`Date.now().toString()`), in particular its injectivity. -/
def digitsRev (n : Nat) : List Char :=
  Nat.digitChar (n % 10) ::
    (if n / 10 = 0 then [] else digitsRev (n / 10))
termination_by n
decreasing_by
  rename_i h
  have h0 : n ≠ 0 := by
    intro hc
    rw [hc] at h
    simp at h
  exact Nat.div_lt_self (Nat.pos_of_ne_zero h0) (by decide)

/-! Concrete fixtures used by witnesses and counterexamples. -/

/-- A freshly registered pending entry. -/
def entry0 : PendingEntry := ⟨0, none, none⟩

/-- Accepted-event frame carrying a substantive TEXT block. -/
def cxFrameC1 : Frame :=
  { eventType := "NEW_CHAT_CREATED",
    data := some ⟨some "conv-77", none,
                  some ⟨[⟨"TEXT", "full answer"⟩], some true⟩⟩,
    uiTempId := some (.vstr "tok-c1"), topTempId := none,
    dataUiTempId := none, requestIdHeader := none }

/-- Table with the query matching `cxFrameC1` pending. -/
def cxTableC1 : Table := [("tok-c1", entry0)]

/-- Loader-only reply (NEW_MESSAGE) frame. -/
def wFrameC1 : Frame :=
  { eventType := "NEW_MESSAGE",
    data := some ⟨none, none,
                  some ⟨[⟨"LOADER_TEXT", "thinking"⟩], some false⟩⟩,
    uiTempId := some (.vstr "t-c1w"), topTempId := none,
    dataUiTempId := none, requestIdHeader := none }

/-- Table with the query matching `wFrameC1` pending. -/
def wTableC1 : Table := [("t-c1w", entry0)]

/-- Loader-only frame of an unrecognized event type. -/
def cxFrameC2 : Frame :=
  { eventType := "SOME_OTHER_EVENT",
    data := some ⟨none, none,
                  some ⟨[⟨"LOADER_TEXT", "loading"⟩], some false⟩⟩,
    uiTempId := some (.vstr "tok-c2"), topTempId := none,
    dataUiTempId := none, requestIdHeader := none }

/-- Table with the query matching `cxFrameC2` pending. -/
def cxTableC2 : Table := [("tok-c2", entry0)]

/-- Loader-only NEW_MESSAGE frame for the C2 witness. -/
def wFrameC2 : Frame :=
  { eventType := "NEW_MESSAGE",
    data := some ⟨none, none,
                  some ⟨[⟨"LOADER_TEXT", "wait"⟩], some false⟩⟩,
    uiTempId := some (.vstr "t-c2w"), topTempId := none,
    dataUiTempId := none, requestIdHeader := none }

/-- Table with the query matching `wFrameC2` pending. -/
def wTableC2 : Table := [("t-c2w", entry0)]

/-- Accepted event of the C3 scenario: reference id, no content. -/
def wAcceptC3 : Frame :=
  { eventType := "NEW_CHAT_CREATED",
    data := some ⟨some "conv-9", none, none⟩,
    uiTempId := some (.vstr "300"), topTempId := none,
    dataUiTempId := none, requestIdHeader := none }

/-- Reply event of the C3 scenario: text and card, no reference id. -/
def wReplyC3 : Frame :=
  { eventType := "NEW_MESSAGE",
    data := some ⟨none, none,
                  some ⟨[⟨"TEXT", "hotel options"⟩, ⟨"CARD", "card"⟩],
                        some false⟩⟩,
    uiTempId := some (.vstr "300"), topTempId := none,
    dataUiTempId := none, requestIdHeader := none }

/-- Table for the C3 scenario. -/
def wTableC3 : Table := [("300", entry0)]

/-- Table of the spec scenario for token matching: pending token is a
composite id embedding the frame token. -/
def wTableC4 : Table := [("corr-abc-123-trace", entry0)]

/-- Minimal response frame used as a resolution payload. -/
def bareFrameC4 : Frame :=
  { eventType := "ASSISTANT_REPLY", data := none, uiTempId := none,
    topTempId := none, dataUiTempId := none, requestIdHeader := none }

/-- Table whose sole pending token strictly contains the token of a
later resolve call. -/
def cxTableC5 : Table := [("corr-xyz-trace", entry0)]

/-- Minimal response frame for the C5 counterexample. -/
def cxRespC5 : Frame :=
  { eventType := "NEW_MESSAGE", data := none, uiTempId := none,
    topTempId := none, dataUiTempId := none, requestIdHeader := none }

/-- Table for the C5 witness: the token resolved against it matches
nothing, not even by substring. -/
def wTableC5 : Table := [("alpha", entry0)]

/-- Connected client with one pending query, for disconnect. -/
def cxStateC6 : ClientState :=
  { ws := some ⟨0, 1⟩, isConnected := true, reconnectAttempts := 0,
    maxReconnectAttempts := 5, reconnectDelay := 3000,
    heartbeatOn := true, pendingRequests := [("tok-c6", entry0)],
    nextSocketId := 1 }

/-- Client that exhausted its reconnect attempts with one query still
pending. -/
def cxStateC7 : ClientState :=
  { ws := none, isConnected := false, reconnectAttempts := 5,
    maxReconnectAttempts := 5, reconnectDelay := 3000,
    heartbeatOn := false, pendingRequests := [("tok-c7", entry0)],
    nextSocketId := 1 }

/-- Disconnected client, for the query-API claims. -/
def cxStateC8 : ClientState :=
  { ws := none, isConnected := false, reconnectAttempts := 0,
    maxReconnectAttempts := 5, reconnectDelay := 3000,
    heartbeatOn := false, pendingRequests := [], nextSocketId := 0 }

/-- Connected client with an OPEN socket and empty pending table. -/
def wStateC8 : ClientState :=
  { ws := some ⟨0, 1⟩, isConnected := true, reconnectAttempts := 0,
    maxReconnectAttempts := 5, reconnectDelay := 3000,
    heartbeatOn := true, pendingRequests := [], nextSocketId := 1 }

/-- Headers built from fixed config values and uuid draws. -/
def hdrs0 : Headers := buildHeaders "req-1" "sess-1" "jour-1" "dev-1" "o1"

/-- Client in the middle of a connection attempt: a socket exists but
has not opened yet (readyState 0, `isConnected` still false). -/
def wStateC10 : ClientState :=
  { ws := some ⟨0, 0⟩, isConnected := false, reconnectAttempts := 0,
    maxReconnectAttempts := 5, reconnectDelay := 3000,
    heartbeatOn := false, pendingRequests := [], nextSocketId := 1 }

/-! Helper lemmas. -/

theorem toDigitsCore_ne_nil (b : Nat) :
    ∀ (fuel n : Nat) (ds : List Char), ds ≠ [] →
      Nat.toDigitsCore b fuel n ds ≠ [] := by
  intro fuel
  induction fuel with
  | zero => intro n ds h; simpa [Nat.toDigitsCore] using h
  | succ f ih =>
    intro n ds h
    simp only [Nat.toDigitsCore]
    by_cases h2 : n / b = 0
    · simp [h2]
    · simp only [h2, if_false]
      exact ih (n / b) _ (by simp)

theorem toDigits_ne_nil (b n : Nat) : Nat.toDigits b n ≠ [] := by
  unfold Nat.toDigits
  simp only [Nat.toDigitsCore]
  by_cases h2 : n / b = 0
  · simp [h2]
  · simp only [h2, if_false]
    exact toDigitsCore_ne_nil b n (n / b) _ (by simp)

theorem natRepr_ne_empty (n : Nat) : Nat.repr n ≠ "" := by
  intro h
  have h2 : Nat.toDigits 10 n = [] := by
    have h3 := congrArg String.data h
    simpa [Nat.repr, List.asString] using h3
  exact toDigits_ne_nil 10 n h2

theorem extractTempId_ne_empty (m : Frame) (t : String)
    (h : extractTempId m = some t) : t ≠ "" := by
  unfold extractTempId at h
  cases hj : jsOr m.uiTempId
      (jsOr m.topTempId
        (jsOr m.dataUiTempId (m.requestIdHeader.map JsVal.vstr))) with
  | none => rw [hj] at h; exact absurd h (by simp)
  | some v =>
    rw [hj] at h
    by_cases htr : v.truthy
    · simp only [htr, if_pos] at h
      cases v with
      | vstr s =>
        simp only [JsVal.truthy] at htr
        have hs : ¬(s == "") = true := by
          intro hc; rw [hc] at htr; exact absurd htr (by simp)
        have hs2 : s ≠ "" := by
          intro hc; exact hs (by simp [hc])
        simp only [JsVal.toStr] at h
        cases h; exact hs2
      | vnum n =>
        simp only [JsVal.toStr] at h
        cases h; exact natRepr_ne_empty n
    · simp [htr] at h

theorem mapGet_mapSet_map (tb : Table) (k : String) (v : PendingEntry)
    (h : mapHas tb k = true) :
    mapGet (tb.map (fun p => if p.1 == k then (k, v) else p)) k
      = some v := by
  induction tb with
  | nil => simp [mapHas, mapGet] at h
  | cons p tl ih =>
    by_cases hp : p.1 == k
    · simp [mapGet, List.find?, hp]
    · have h2 : mapHas tl k = true := by
        simpa [mapHas, mapGet, List.find?, hp] using h
      simpa [mapGet, List.find?, hp] using ih h2

theorem mapGet_append_self (tb : Table) (k : String) (v : PendingEntry)
    (h : mapHas tb k = false) :
    mapGet (tb ++ [(k, v)]) k = some v := by
  induction tb with
  | nil => simp [mapGet, List.find?]
  | cons p tl ih =>
    by_cases hp : p.1 == k
    · simp [mapHas, mapGet, List.find?, hp] at h
    · have h2 : mapHas tl k = false := by
        simpa [mapHas, mapGet, List.find?, hp] using h
      simpa [mapGet, List.find?, hp] using ih h2

theorem mapGet_mapSet_self (tb : Table) (k : String) (v : PendingEntry) :
    mapGet (mapSet tb k v) k = some v := by
  unfold mapSet
  by_cases h : mapHas tb k
  · simpa [h] using mapGet_mapSet_map tb k v h
  · have h2 : mapHas tb k = false := by simpa using h
    simpa [h2] using mapGet_append_self tb k v h2

theorem mapHas_mapSet_self (tb : Table) (k : String) (v : PendingEntry) :
    mapHas (mapSet tb k v) k = true := by
  simp [mapHas, mapGet_mapSet_self]

theorem mapKeys_cons (p : String × PendingEntry) (tl : Table) :
    mapKeys (p :: tl) = p.1 :: mapKeys tl := rfl

theorem mapDelete_cons_hit (p : String × PendingEntry) (tl : Table)
    (k : String) (hp : (p.1 == k) = true) :
    mapDelete (p :: tl) k = mapDelete tl k := by
  simp [mapDelete, List.filter_cons, hp]

theorem mapDelete_cons_miss (p : String × PendingEntry) (tl : Table)
    (k : String) (hp : (p.1 == k) = false) :
    mapDelete (p :: tl) k = p :: mapDelete tl k := by
  simp [mapDelete, List.filter_cons, hp]

theorem mapGet_mapDelete_self (tb : Table) (k : String) :
    mapGet (mapDelete tb k) k = none := by
  induction tb with
  | nil => rfl
  | cons p tl ih =>
    by_cases hp : p.1 == k
    · rw [mapDelete_cons_hit p tl k hp]
      exact ih
    · have hp2 : (p.1 == k) = false := by simpa using hp
      rw [mapDelete_cons_miss p tl k hp2]
      simpa [mapGet, List.find?, hp2] using ih

theorem mapHas_mapDelete_self (tb : Table) (k : String) :
    mapHas (mapDelete tb k) k = false := by
  simp [mapHas, mapGet_mapDelete_self]

theorem mapHas_mem_keys (tb : Table) (k : String)
    (h : mapHas tb k = true) : k ∈ mapKeys tb := by
  induction tb with
  | nil => simp [mapHas, mapGet] at h
  | cons p tl ih =>
    by_cases hp : p.1 == k
    · have : p.1 = k := by simpa using hp
      simp [mapKeys, this]
    · have h2 : mapHas tl k = true := by
        simpa [mapHas, mapGet, List.find?, hp] using h
      simp [mapKeys]
      right
      simpa [mapKeys] using ih h2

theorem not_mem_keys_mapDelete (tb : Table) (k : String) :
    k ∉ mapKeys (mapDelete tb k) := by
  induction tb with
  | nil =>
    intro h
    simp [mapDelete, mapKeys] at h
  | cons p tl ih =>
    by_cases hp : (p.1 == k) = true
    · rw [mapDelete_cons_hit p tl k hp]
      exact ih
    · have hp2 : (p.1 == k) = false := by simpa using hp
      rw [mapDelete_cons_miss p tl k hp2, mapKeys_cons]
      intro h
      rcases List.mem_cons.mp h with h1 | h1
      · have hpk : p.1 = k := h1.symm
        rw [hpk] at hp2
        simp at hp2
      · exact ih h1

theorem keys_mapDelete_subset (tb : Table) (k x : String)
    (h : x ∈ mapKeys (mapDelete tb k)) : x ∈ mapKeys tb := by
  induction tb with
  | nil => simp [mapDelete, mapKeys] at h
  | cons p tl ih =>
    rw [mapKeys_cons]
    by_cases hp : (p.1 == k) = true
    · rw [mapDelete_cons_hit p tl k hp] at h
      exact List.mem_cons.mpr (Or.inr (ih h))
    · have hp2 : (p.1 == k) = false := by simpa using hp
      rw [mapDelete_cons_miss p tl k hp2, mapKeys_cons] at h
      rcases List.mem_cons.mp h with h1 | h1
      · exact List.mem_cons.mpr (Or.inl h1)
      · exact List.mem_cons.mpr (Or.inr (ih h1))

theorem mergeChatCreated_data (m : Frame) (e : PendingEntry) :
    (mergeChatCreated m e).eventType = m.eventType ∧
    frameContent (mergeChatCreated m e) = frameContent m ∧
    frameLeadingQ (mergeChatCreated m e) = frameLeadingQ m := by
  unfold mergeChatCreated
  cases e.chatCreated with
  | none => exact ⟨rfl, rfl, rfl⟩
  | some cc =>
    by_cases hc : (!(jsTruthyStr (frameConvId m))
        && jsTruthyStr (frameConvId cc)) = true
    · simp only [hc, if_pos]
      cases hd : m.data with
      | none => simp [frameContent, frameLeadingQ, setConvId, hd]
      | some d => simp [frameContent, frameLeadingQ, setConvId, hd]
    · simp only [Bool.not_eq_true] at hc
      simp [hc]

theorem hasLoaderText_merge (m : Frame) (e : PendingEntry) :
    hasLoaderText (mergeChatCreated m e) = hasLoaderText m := by
  simp [hasLoaderText, (mergeChatCreated_data m e).2.1]

theorem hasActualContent_merge (m : Frame) (e : PendingEntry) :
    hasActualContent (mergeChatCreated m e) = hasActualContent m := by
  simp [hasActualContent, (mergeChatCreated_data m e).2.1]

theorem hasLeadingQuestion_merge (m : Frame) (e : PendingEntry) :
    hasLeadingQuestion (mergeChatCreated m e) = hasLeadingQuestion m := by
  simp [hasLeadingQuestion, (mergeChatCreated_data m e).2.2]

theorem resolvePending_exact (tb : Table) (t : String) (r : Frame)
    (h1 : t ≠ "") (h2 : mapHas tb t = true) :
    resolvePending tb (.vstr t) r =
      (mapDelete tb t,
       [.log "resolvePending.exactMatch", .resolveKey t r]) := by
  have htr : (JsVal.vstr t).truthy = true := by
    simp [JsVal.truthy, h1]
  simp [resolvePending, htr, h2, JsVal.toStr]

theorem handleMessage_newMessage_eq (tb : Table) (m : Frame) (t : String)
    (e : PendingEntry) (hev : m.eventType = "NEW_MESSAGE")
    (hx : extractTempId m = some t) (he : mapGet tb t = some e) :
    handleMessage tb m =
      ((hmNewMessageMatched tb m t e).1,
       Effect.log "receivedMessage" :: Effect.log "fullResponseDebug" ::
         Effect.emit "message" :: Effect.emit "newMessage" ::
         (hmNewMessageMatched tb m t e).2) := by
  unfold handleMessage
  rw [hev, hx]
  simp [he]

theorem handleMessage_chatCreated_matched (tb : Table) (m : Frame)
    (t : String) (e : PendingEntry)
    (hev : m.eventType = "NEW_CHAT_CREATED")
    (hx : extractTempId m = some t) (he : mapGet tb t = some e) :
    handleMessage tb m =
      (mapSet tb t { e with chatCreated := some m },
       [Effect.log "receivedMessage", Effect.log "fullResponseDebug",
        Effect.emit "message", Effect.emit "chatCreated",
        Effect.log "waitingForNewMessage"]) := by
  unfold handleMessage
  rw [hev, hx]
  simp [he]

theorem handleMessage_chatCreated_no_settle (tb : Table) (m : Frame)
    (hev : m.eventType = "NEW_CHAT_CREATED") :
    resolvedKeys (handleMessage tb m).2 = [] ∧
    rejectedKeys (handleMessage tb m).2 = [] := by
  unfold handleMessage
  rw [hev]
  cases hx : extractTempId m with
  | none => simp [resolvedKeys, resolvedPairs, rejectedKeys]
  | some t =>
    cases he : mapGet tb t with
    | none => simp [he, resolvedKeys, resolvedPairs, rejectedKeys]
    | some e => simp [he, resolvedKeys, resolvedPairs, rejectedKeys]

theorem handleMessage_default_resolves (tb : Table) (m : Frame)
    (t : String) (e : PendingEntry)
    (h1 : ¬ m.eventType = "NEW_CHAT_CREATED")
    (h2 : ¬ m.eventType = "NEW_MESSAGE")
    (hx : extractTempId m = some t) (he : mapGet tb t = some e) :
    resolvedPairs (handleMessage tb m).2 = [(t, m)] ∧
    mapHas (handleMessage tb m).1 t = false := by
  have hne := extractTempId_ne_empty m t hx
  have hhas : mapHas tb t = true := by simp [mapHas, he]
  have hrp := resolvePending_exact tb t m hne hhas
  unfold handleMessage
  rw [hx]
  by_cases hhb : m.eventType = "HEART_BEAT" <;>
    simp [h1, h2, hhb, he, hrp, resolvedKeys, resolvedPairs,
          mapHas_mapDelete_self]

theorem hmNMM_skip (tb : Table) (m : Frame) (t : String)
    (e : PendingEntry) (hL : hasLoaderText m = true)
    (hA : hasActualContent m = false) (hQ : hasLeadingQuestion m = false) :
    hmNewMessageMatched tb m t e =
      (mapSet tb t { e with lastMessage := some (mergeChatCreated m e) },
       (if e.chatCreated.isSome then [Effect.log "mergingChatCreated"]
        else []) ++ [Effect.log "skipLoaderOnly"]) := by
  unfold hmNewMessageMatched
  simp [hasLoaderText_merge, hasActualContent_merge,
        hasLeadingQuestion_merge, hL, hA, hQ]

theorem hmNMM_resolve_actual (tb : Table) (m : Frame) (t : String)
    (e : PendingEntry) (ht : t ≠ "")
    (hAQ : (hasActualContent m || hasLeadingQuestion m) = true) :
    hmNewMessageMatched tb m t e =
      (mapDelete
         (mapSet tb t { e with lastMessage := some (mergeChatCreated m e) })
         t,
       (if e.chatCreated.isSome then [Effect.log "mergingChatCreated"]
        else []) ++
       [Effect.log "resolvingActualContent",
        Effect.log "resolvePending.exactMatch",
        Effect.resolveKey t (mergeChatCreated m e)]) := by
  have hrp := resolvePending_exact
    (mapSet tb t { e with lastMessage := some (mergeChatCreated m e) }) t
    (mergeChatCreated m e) ht (mapHas_mapSet_self tb t _)
  unfold hmNewMessageMatched
  cases hA : hasActualContent m with
  | true =>
    simp [hasLoaderText_merge, hasActualContent_merge,
          hasLeadingQuestion_merge, hA, hrp]
  | false =>
    have hQ : hasLeadingQuestion m = true := by
      rw [hA] at hAQ; simpa using hAQ
    simp [hasLoaderText_merge, hasActualContent_merge,
          hasLeadingQuestion_merge, hA, hQ, hrp]

theorem hmNMM_resolve_defensive (tb : Table) (m : Frame) (t : String)
    (e : PendingEntry) (ht : t ≠ "") (hL : hasLoaderText m = false)
    (hA : hasActualContent m = false) (hQ : hasLeadingQuestion m = false) :
    hmNewMessageMatched tb m t e =
      (mapDelete
         (mapSet tb t { e with lastMessage := some (mergeChatCreated m e) })
         t,
       (if e.chatCreated.isSome then [Effect.log "mergingChatCreated"]
        else []) ++
       [Effect.log "resolvingNoClearContent",
        Effect.log "resolvePending.exactMatch",
        Effect.resolveKey t (mergeChatCreated m e)]) := by
  have hrp := resolvePending_exact
    (mapSet tb t { e with lastMessage := some (mergeChatCreated m e) }) t
    (mergeChatCreated m e) ht (mapHas_mapSet_self tb t _)
  unfold hmNewMessageMatched
  simp [hasLoaderText_merge, hasActualContent_merge,
        hasLeadingQuestion_merge, hL, hA, hQ, hrp]

theorem resolvePending_stringMatch (tb : Table) (n : Nat) (r : Frame)
    (htr : (JsVal.vnum n).truthy = true)
    (hh : mapHas tb (Nat.repr n) = true) :
    resolvePending tb (.vnum n) r =
      (mapDelete tb (Nat.repr n),
       [.log "resolvePending.stringMatch",
        .resolveKey (Nat.repr n) r]) := by
  simp [resolvePending, htr, hh, JsVal.toStr]

theorem resolvePending_partialMatch (tb : Table) (v : JsVal) (r : Frame)
    (p : String × PendingEntry) (htr : v.truthy = true)
    (hh : mapHas tb v.toStr = false)
    (hf : tb.find? (fun q =>
        strIncludes q.1 v.toStr || strIncludes v.toStr q.1) = some p) :
    resolvePending tb v r =
      (mapDelete tb p.1,
       [.log "resolvePending.partialMatch", .resolveKey p.1 r]) := by
  cases v with
  | vstr s =>
    have hs : mapHas tb s = false := hh
    have hf2 : tb.find? (fun q =>
        strIncludes q.1 s || strIncludes s q.1) = some p := by
      simpa [JsVal.toStr] using hf
    simp [resolvePending, htr, hs, JsVal.toStr, hf2]
  | vnum n =>
    have hs : mapHas tb (Nat.repr n) = false := by
      simpa [JsVal.toStr] using hh
    have hf2 : tb.find? (fun q =>
        strIncludes q.1 (Nat.repr n) ||
          strIncludes (Nat.repr n) q.1) = some p := by
      simpa [JsVal.toStr] using hf
    simp [resolvePending, htr, hs, JsVal.toStr, hf2]

theorem resolvePending_noMatch (tb : Table) (v : JsVal) (r : Frame)
    (htr : v.truthy = true) (hh : mapHas tb v.toStr = false)
    (hf : tb.find? (fun q =>
        strIncludes q.1 v.toStr || strIncludes v.toStr q.1) = none) :
    resolvePending tb v r =
      (if tb.isEmpty then (tb, [.log "resolvePending.noPending"])
       else (tb, [.warnUnknownTempId v.toStr (mapKeys tb)])) := by
  cases v with
  | vstr s =>
    have hs : mapHas tb s = false := hh
    have hf2 : tb.find? (fun q =>
        strIncludes q.1 s || strIncludes s q.1) = none := by
      simpa [JsVal.toStr] using hf
    simp [resolvePending, htr, hs, JsVal.toStr, hf2]
  | vnum n =>
    have hs : mapHas tb (Nat.repr n) = false := by
      simpa [JsVal.toStr] using hh
    have hf2 : tb.find? (fun q =>
        strIncludes q.1 (Nat.repr n) ||
          strIncludes (Nat.repr n) q.1) = none := by
      simpa [JsVal.toStr] using hf
    simp [resolvePending, htr, hs, JsVal.toStr, hf2]

theorem specMatch_none_elim (tb : Table) (v : JsVal)
    (h : specMatch tb v = none) :
    mapHas tb v.toStr = false ∧
    tb.find? (fun q =>
      strIncludes q.1 v.toStr || strIncludes v.toStr q.1) = none := by
  cases v with
  | vstr s =>
    by_cases hh : mapHas tb s = true
    · simp [specMatch, hh] at h
    · have hh2 : mapHas tb s = false := by simpa using hh
      have h2 : (tb.find? (fun q =>
          strIncludes q.1 s || strIncludes s q.1)).map (fun p => p.1)
          = none := by
        simpa [specMatch, hh2, JsVal.toStr] using h
      exact ⟨hh2, Option.map_eq_none'.mp h2⟩
  | vnum n =>
    by_cases hh : mapHas tb (Nat.repr n) = true
    · simp [specMatch, hh, JsVal.toStr] at h
    · have hh2 : mapHas tb (Nat.repr n) = false := by simpa using hh
      have h2 : (tb.find? (fun q =>
          strIncludes q.1 (Nat.repr n) ||
            strIncludes (Nat.repr n) q.1)).map (fun p => p.1)
          = none := by
        simpa [specMatch, hh2, JsVal.toStr] using h
      exact ⟨hh2, Option.map_eq_none'.mp h2⟩

theorem resolvePending_resolved_cases (tb : Table) (v : JsVal)
    (r : Frame) :
    (resolvedKeys (resolvePending tb v r).2 = [] ∧
       (resolvePending tb v r).1 = tb) ∨
    (∃ k, resolvedKeys (resolvePending tb v r).2 = [k] ∧
       (resolvePending tb v r).1 = mapDelete tb k ∧ k ∈ mapKeys tb) := by
  by_cases htr : v.truthy = true
  · cases v with
    | vstr s =>
      by_cases hh : mapHas tb s = true
      · right
        refine ⟨s, ?_⟩
        rw [resolvePending_exact tb s r ?hne hh]
        · exact ⟨by simp [resolvedKeys, resolvedPairs], rfl,
                 mapHas_mem_keys tb s hh⟩
        · intro hc
          rw [hc] at htr
          simp [JsVal.truthy] at htr
      · have hh2 : mapHas tb (JsVal.vstr s).toStr = false := by
          simpa [JsVal.toStr] using hh
        cases hf : tb.find? (fun q =>
            strIncludes q.1 (JsVal.vstr s).toStr ||
              strIncludes (JsVal.vstr s).toStr q.1) with
        | some p =>
          right
          refine ⟨p.1, ?_⟩
          rw [resolvePending_partialMatch tb (.vstr s) r p htr hh2 hf]
          refine ⟨by simp [resolvedKeys, resolvedPairs], rfl, ?_⟩
          exact List.mem_map_of_mem _ (List.mem_of_find?_eq_some hf)
        | none =>
          left
          rw [resolvePending_noMatch tb (.vstr s) r htr hh2 hf]
          by_cases he : tb.isEmpty <;>
            simp [he, resolvedKeys, resolvedPairs]
      | vnum n =>
        by_cases hh : mapHas tb (Nat.repr n) = true
        · right
          refine ⟨Nat.repr n, ?_⟩
          rw [resolvePending_stringMatch tb n r htr hh]
          exact ⟨by simp [resolvedKeys, resolvedPairs], rfl,
                 mapHas_mem_keys tb (Nat.repr n) hh⟩
        · have hh2 : mapHas tb (JsVal.vnum n).toStr = false := by
            simpa [JsVal.toStr] using hh
          cases hf : tb.find? (fun q =>
              strIncludes q.1 (JsVal.vnum n).toStr ||
                strIncludes (JsVal.vnum n).toStr q.1) with
          | some p =>
            right
            refine ⟨p.1, ?_⟩
            rw [resolvePending_partialMatch tb (.vnum n) r p htr hh2 hf]
            refine ⟨by simp [resolvedKeys, resolvedPairs], rfl, ?_⟩
            exact List.mem_map_of_mem _ (List.mem_of_find?_eq_some hf)
          | none =>
            left
            rw [resolvePending_noMatch tb (.vnum n) r htr hh2 hf]
            by_cases he : tb.isEmpty <;>
              simp [he, resolvedKeys, resolvedPairs]
  · left
    have htr2 : v.truthy = false := by simpa using htr
    simp [resolvePending, htr2, resolvedKeys, resolvedPairs]

theorem resolvedKeys_append (a b : List Effect) :
    resolvedKeys (a ++ b) = resolvedKeys a ++ resolvedKeys b := by
  simp [resolvedKeys, resolvedPairs, List.filterMap_append]

theorem runResolves_resolved_subset (calls : List (JsVal × Frame)) :
    ∀ (tb : Table) (x : String),
      x ∈ resolvedKeys (runResolves tb calls).2 → x ∈ mapKeys tb := by
  induction calls with
  | nil => intro tb x hx; simp [runResolves, resolvedKeys, resolvedPairs] at hx
  | cons c rest ih =>
    intro tb x hx
    have hx2 : x ∈ resolvedKeys (resolvePending tb c.1 c.2).2 ++
        resolvedKeys (runResolves (resolvePending tb c.1 c.2).1 rest).2 := by
      simpa [runResolves, resolvedKeys_append] using hx
    rcases List.mem_append.mp hx2 with hx3 | hx3
    · rcases resolvePending_resolved_cases tb c.1 c.2 with ⟨h1, _⟩ |
        ⟨k, h1, _, h3⟩
      · rw [h1] at hx3; simp at hx3
      · rw [h1] at hx3
        have : x = k := by simpa using hx3
        rw [this]; exact h3
    · rcases resolvePending_resolved_cases tb c.1 c.2 with ⟨_, h2⟩ |
        ⟨k, _, h2, _⟩
      · rw [h2] at hx3; exact ih tb x hx3
      · rw [h2] at hx3
        exact keys_mapDelete_subset tb k x (ih (mapDelete tb k) x hx3)

theorem runResolves_keys_nodup (calls : List (JsVal × Frame)) :
    ∀ tb : Table, (resolvedKeys (runResolves tb calls).2).Nodup := by
  induction calls with
  | nil => intro tb; simp [runResolves, resolvedKeys, resolvedPairs]
  | cons c rest ih =>
    intro tb
    have heq : resolvedKeys (runResolves tb (c :: rest)).2 =
        resolvedKeys (resolvePending tb c.1 c.2).2 ++
        resolvedKeys (runResolves (resolvePending tb c.1 c.2).1 rest).2 := by
      simp [runResolves, resolvedKeys_append]
    rw [heq]
    rcases resolvePending_resolved_cases tb c.1 c.2 with ⟨h1, _⟩ |
      ⟨k, h1, h2, _⟩
    · rw [h1]
      simpa using ih (resolvePending tb c.1 c.2).1
    · rw [h1]
      refine List.Nodup.cons ?_ (ih (resolvePending tb c.1 c.2).1)
      intro hc
      have := runResolves_resolved_subset rest
        (resolvePending tb c.1 c.2).1 k hc
      rw [h2] at this
      exact not_mem_keys_mapDelete tb k this

/-! Claim theorems. -/

/-- Claim C1, counterexample: the claim quantifies over every inbound
frame whose token matches a pending query, but a NEW_CHAT_CREATED frame
carrying a substantive TEXT marker - Final by the claimed
classification, hence required to resolve the query - does not resolve
it: the query stays pending and no resolve is invoked. -/
theorem c1_counterexample :
    hasActualContent cxFrameC1 = true ∧
    extractTempId cxFrameC1 = some "tok-c1" ∧
    mapHas cxTableC1 "tok-c1" = true ∧
    resolvedKeys (handleMessage cxTableC1 cxFrameC1).2 = [] ∧
    mapHas (handleMessage cxTableC1 cxFrameC1).1 "tok-c1" = true := by
  decide

/-- Claim C1 (amended to reply frames): for every NEW_MESSAGE frame
whose token matches a pending query, the frame is Preliminary (buffered,
not resolved) exactly when its content has a loading marker and no
substantive marker (TEXT, CARD, LIST) and no truthy top-level
leadingQuestion; it is Final and resolves the query with its (merged)
payload when it has a substantive marker or a leadingQuestion,
regardless of the isCompleted flag (over which the statement is
universally quantified); a frame with neither loading-only content nor
recognizable content resolves defensively. -/
theorem c1_finality_classification (tb : Table) (m : Frame) (t : String)
    (e : PendingEntry) (hev : m.eventType = "NEW_MESSAGE")
    (hx : extractTempId m = some t) (he : mapGet tb t = some e) :
    (hasLoaderText m = true ∧ hasActualContent m = false ∧
       hasLeadingQuestion m = false →
       resolvedKeys (handleMessage tb m).2 = [] ∧
       mapHas (handleMessage tb m).1 t = true) ∧
    (hasActualContent m = true ∨ hasLeadingQuestion m = true →
       resolvedPairs (handleMessage tb m).2 = [(t, mergeChatCreated m e)] ∧
       mapHas (handleMessage tb m).1 t = false) ∧
    (hasLoaderText m = false ∧ hasActualContent m = false ∧
       hasLeadingQuestion m = false →
       resolvedPairs (handleMessage tb m).2 = [(t, mergeChatCreated m e)] ∧
       mapHas (handleMessage tb m).1 t = false) := by
  have hne := extractTempId_ne_empty m t hx
  have hmain := handleMessage_newMessage_eq tb m t e hev hx he
  refine ⟨?_, ?_, ?_⟩
  · rintro ⟨hL, hA, hQ⟩
    rw [hmain, hmNMM_skip tb m t e hL hA hQ]
    constructor
    · cases hcc : e.chatCreated.isSome <;>
        simp [hcc, resolvedKeys, resolvedPairs]
    · simp [mapHas_mapSet_self]
  · intro hAQ'
    have hAQ : (hasActualContent m || hasLeadingQuestion m) = true := by
      rcases hAQ' with h | h <;> simp [h]
    rw [hmain, hmNMM_resolve_actual tb m t e hne hAQ]
    constructor
    · cases hcc : e.chatCreated.isSome <;>
        simp [hcc, resolvedKeys, resolvedPairs]
    · simp [mapHas_mapDelete_self]
  · rintro ⟨hL, hA, hQ⟩
    rw [hmain, hmNMM_resolve_defensive tb m t e hne hL hA hQ]
    constructor
    · cases hcc : e.chatCreated.isSome <;>
        simp [hcc, resolvedKeys, resolvedPairs]
    · simp [mapHas_mapDelete_self]

/-- Witness for C1: a concrete loader-only reply frame is buffered and
leaves its query pending. -/
theorem c1_witness :
    wFrameC1.eventType = "NEW_MESSAGE" ∧
    extractTempId wFrameC1 = some "t-c1w" ∧
    mapGet wTableC1 "t-c1w" = some entry0 ∧
    (resolvedKeys (handleMessage wTableC1 wFrameC1).2 = [] ∧
     mapHas (handleMessage wTableC1 wFrameC1).1 "t-c1w" = true) :=
  ⟨by decide, by decide, by decide,
   (c1_finality_classification wTableC1 wFrameC1 "t-c1w" entry0
      (by decide) (by decide) (by decide)).1
     ⟨by decide, by decide, by decide⟩⟩

/-- Claim C2, counterexample: a loader-only frame (Preliminary by the
claimed classification) of an event type other than the reply type, with
a token matching a pending query, resolves that query - the claimed
protection does not hold for every event type. -/
theorem c2_counterexample :
    hasLoaderText cxFrameC2 = true ∧
    hasActualContent cxFrameC2 = false ∧
    hasLeadingQuestion cxFrameC2 = false ∧
    extractTempId cxFrameC2 = some "tok-c2" ∧
    mapHas cxTableC2 "tok-c2" = true ∧
    resolvedKeys (handleMessage cxTableC2 cxFrameC2).2 = ["tok-c2"] := by
  decide

/-- Claim C2 (amended): a Preliminary (loader-only) frame never resolves
nor rejects its pending query when its event type is NEW_MESSAGE, and
NEW_CHAT_CREATED frames never resolve nor reject regardless of content;
but for any other event type, a token-matching frame resolves the
query unconditionally, regardless of its content. -/
theorem c2_preliminary_never_resolves :
    (∀ (tb : Table) (m : Frame) (t : String) (e : PendingEntry),
       m.eventType = "NEW_MESSAGE" → extractTempId m = some t →
       mapGet tb t = some e → hasLoaderText m = true →
       hasActualContent m = false → hasLeadingQuestion m = false →
       resolvedKeys (handleMessage tb m).2 = [] ∧
       rejectedKeys (handleMessage tb m).2 = [] ∧
       mapHas (handleMessage tb m).1 t = true) ∧
    (∀ (tb : Table) (m : Frame), m.eventType = "NEW_CHAT_CREATED" →
       resolvedKeys (handleMessage tb m).2 = [] ∧
       rejectedKeys (handleMessage tb m).2 = []) ∧
    (∀ (tb : Table) (m : Frame) (t : String) (e : PendingEntry),
       ¬ m.eventType = "NEW_CHAT_CREATED" → ¬ m.eventType = "NEW_MESSAGE" →
       extractTempId m = some t → mapGet tb t = some e →
       resolvedKeys (handleMessage tb m).2 = [t]) := by
  refine ⟨?_, ?_, ?_⟩
  · intro tb m t e hev hx he hL hA hQ
    have hmain := handleMessage_newMessage_eq tb m t e hev hx he
    rw [hmain, hmNMM_skip tb m t e hL hA hQ]
    refine ⟨?_, ?_, ?_⟩
    · cases hcc : e.chatCreated.isSome <;>
        simp [hcc, resolvedKeys, resolvedPairs]
    · cases hcc : e.chatCreated.isSome <;> simp [hcc, rejectedKeys]
    · simp [mapHas_mapSet_self]
  · intro tb m hev
    exact handleMessage_chatCreated_no_settle tb m hev
  · intro tb m t e h1 h2 hx he
    have h := handleMessage_default_resolves tb m t e h1 h2 hx he
    simp [resolvedKeys, h.1]

/-- Witness for C2: concrete instance of the NEW_MESSAGE part of the
amended claim. -/
theorem c2_witness :
    wFrameC2.eventType = "NEW_MESSAGE" ∧
    extractTempId wFrameC2 = some "t-c2w" ∧
    mapGet wTableC2 "t-c2w" = some entry0 ∧
    (resolvedKeys (handleMessage wTableC2 wFrameC2).2 = [] ∧
     rejectedKeys (handleMessage wTableC2 wFrameC2).2 = [] ∧
     mapHas (handleMessage wTableC2 wFrameC2).1 "t-c2w" = true) :=
  ⟨by decide, by decide, by decide,
   c2_preliminary_never_resolves.1 wTableC2 wFrameC2 "t-c2w" entry0
     (by decide) (by decide) (by decide) (by decide) (by decide)
     (by decide)⟩

/-- Claim C3: an accepted (NEW_CHAT_CREATED) event with a truthy
conversation reference never resolves the query by itself; a subsequent
final reply (NEW_MESSAGE) for the same token that lacks the reference
resolves the query with the reference from the accepted event merged
into the payload. -/
theorem c3_merge_chat_created (tb : Table) (m1 m2 : Frame) (t : String)
    (e : PendingEntry)
    (hev1 : m1.eventType = "NEW_CHAT_CREATED")
    (hx1 : extractTempId m1 = some t)
    (hc1 : jsTruthyStr (frameConvId m1) = true)
    (hev2 : m2.eventType = "NEW_MESSAGE")
    (hx2 : extractTempId m2 = some t)
    (hc2 : jsTruthyStr (frameConvId m2) = false)
    (hfin : hasActualContent m2 = true ∨ hasLeadingQuestion m2 = true)
    (he : mapGet tb t = some e) :
    resolvedKeys (handleMessage tb m1).2 = [] ∧
    mapHas (handleMessage tb m1).1 t = true ∧
    resolvedPairs (handleMessage (handleMessage tb m1).1 m2).2 =
      [(t, mergeChatCreated m2 { e with chatCreated := some m1 })] ∧
    frameConvId (mergeChatCreated m2 { e with chatCreated := some m1 }) =
      frameConvId m1 := by
  have hne2 := extractTempId_ne_empty m2 t hx2
  have hmain1 := handleMessage_chatCreated_matched tb m1 t e hev1 hx1 he
  have he1 : mapGet (handleMessage tb m1).1 t =
      some { e with chatCreated := some m1 } := by
    rw [hmain1]
    exact mapGet_mapSet_self tb t _
  have hAQ : (hasActualContent m2 || hasLeadingQuestion m2) = true := by
    rcases hfin with h | h <;> simp [h]
  refine ⟨?_, ?_, ?_, ?_⟩
  · rw [hmain1]; simp [resolvedKeys, resolvedPairs]
  · rw [hmain1]; simp [mapHas_mapSet_self]
  · have hmain2 := handleMessage_newMessage_eq (handleMessage tb m1).1 m2 t
      { e with chatCreated := some m1 } hev2 hx2 he1
    rw [hmain2,
        hmNMM_resolve_actual (handleMessage tb m1).1 m2 t
          { e with chatCreated := some m1 } hne2 hAQ]
    simp [resolvedKeys, resolvedPairs]
  · have hb1 : jsTruthyStr (m1.data.bind fun d => d.conversationId)
        = true := hc1
    have hb2 : jsTruthyStr (m2.data.bind fun d => d.conversationId)
        = false := hc2
    simp [mergeChatCreated, frameConvId, setConvId, hb1, hb2]

/-- Witness for C3: the spec scenario - accepted event with reference
"conv-9", then a reply with text and card content and no reference. -/
theorem c3_witness :
    extractTempId wAcceptC3 = some "300" ∧
    extractTempId wReplyC3 = some "300" ∧
    (resolvedKeys (handleMessage wTableC3 wAcceptC3).2 = [] ∧
     mapHas (handleMessage wTableC3 wAcceptC3).1 "300" = true ∧
     resolvedPairs
         (handleMessage (handleMessage wTableC3 wAcceptC3).1 wReplyC3).2 =
       [("300",
         mergeChatCreated wReplyC3 { entry0 with chatCreated := some wAcceptC3 })] ∧
     frameConvId
         (mergeChatCreated wReplyC3 { entry0 with chatCreated := some wAcceptC3 }) =
       frameConvId wAcceptC3) :=
  ⟨by decide, by decide,
   c3_merge_chat_created wTableC3 wAcceptC3 wReplyC3 "300" entry0
     (by decide) (by decide) (by decide) (by decide) (by decide)
     (by decide) (Or.inl (by decide)) (by decide)⟩

/-- Claim C4: resolving a truthy token against the pending table follows
exactly the claimed fallback order - exact string equality, then
string-coerced equality, then substring containment in either direction,
stopping at the first success (the order is the content of `specMatch`,
written from the claim, here proved to govern `resolvePending`); on no
match with a non-empty table, a warning listing the pending tokens is
the sole effect and no query completes. -/
theorem c4_matching_order (tb : Table) (v : JsVal) (r : Frame)
    (htr : v.truthy = true) :
    (∀ k, specMatch tb v = some k →
       (resolvePending tb v r).1 = mapDelete tb k ∧
       resolvedPairs (resolvePending tb v r).2 = [(k, r)]) ∧
    (specMatch tb v = none →
       (resolvePending tb v r).1 = tb ∧
       resolvedKeys (resolvePending tb v r).2 = [] ∧
       (tb ≠ [] → (resolvePending tb v r).2
          = [Effect.warnUnknownTempId v.toStr (mapKeys tb)])) := by
  constructor
  · intro k hk
    cases v with
    | vstr s =>
      by_cases hh : mapHas tb s = true
      · have hks : k = s := by
          have := hk
          simp [specMatch, hh] at this
          exact this.symm
        subst hks
        have hne : k ≠ "" := by
          intro hc; rw [hc] at htr; simp [JsVal.truthy] at htr
        rw [resolvePending_exact tb k r hne hh]
        exact ⟨rfl, by simp [resolvedPairs]⟩
      · have hh2 : mapHas tb s = false := by simpa using hh
        have hh3 : mapHas tb (JsVal.vstr s).toStr = false := hh2
        cases hf : tb.find? (fun q =>
            strIncludes q.1 (JsVal.vstr s).toStr ||
              strIncludes (JsVal.vstr s).toStr q.1) with
        | some p =>
          have hkp : k = p.1 := by
            have hf2 : tb.find? (fun q =>
                strIncludes q.1 s || strIncludes s q.1) = some p := by
              simpa [JsVal.toStr] using hf
            have := hk
            simp [specMatch, hh2, JsVal.toStr, hf2] at this
            exact this.symm
          subst hkp
          rw [resolvePending_partialMatch tb (.vstr s) r p htr hh3 hf]
          exact ⟨rfl, by simp [resolvedPairs]⟩
        | none =>
          exfalso
          have hf2 : tb.find? (fun q =>
              strIncludes q.1 s || strIncludes s q.1) = none := by
            simpa [JsVal.toStr] using hf
          simp [specMatch, hh2, JsVal.toStr, hf2] at hk
    | vnum n =>
      by_cases hh : mapHas tb (Nat.repr n) = true
      · have hks : k = Nat.repr n := by
          have := hk
          simp [specMatch, hh, JsVal.toStr] at this
          exact this.symm
        subst hks
        rw [resolvePending_stringMatch tb n r htr hh]
        exact ⟨rfl, by simp [resolvedPairs]⟩
      · have hh2 : mapHas tb (Nat.repr n) = false := by simpa using hh
        have hh3 : mapHas tb (JsVal.vnum n).toStr = false := hh2
        cases hf : tb.find? (fun q =>
            strIncludes q.1 (JsVal.vnum n).toStr ||
              strIncludes (JsVal.vnum n).toStr q.1) with
        | some p =>
          have hkp : k = p.1 := by
            have hf2 : tb.find? (fun q =>
                strIncludes q.1 (Nat.repr n) ||
                  strIncludes (Nat.repr n) q.1) = some p := by
              simpa [JsVal.toStr] using hf
            have := hk
            simp [specMatch, hh2, JsVal.toStr, hf2] at this
            exact this.symm
          subst hkp
          rw [resolvePending_partialMatch tb (.vnum n) r p htr hh3 hf]
          exact ⟨rfl, by simp [resolvedPairs]⟩
        | none =>
          exfalso
          have hf2 : tb.find? (fun q =>
              strIncludes q.1 (Nat.repr n) ||
                strIncludes (Nat.repr n) q.1) = none := by
            simpa [JsVal.toStr] using hf
          simp [specMatch, hh2, JsVal.toStr, hf2] at hk
  · intro h0
    obtain ⟨hh, hf⟩ := specMatch_none_elim tb v h0
    rw [resolvePending_noMatch tb v r htr hh hf]
    by_cases he : tb.isEmpty
    · have he2 : tb = [] := by simpa [List.isEmpty_iff] using he
      simp [he, he2, resolvedKeys, resolvedPairs]
    · have he2 : tb.isEmpty = false := by simpa using he
      simp [he2, resolvedKeys, resolvedPairs]

/-- Witness for C4: the spec scenario - frame token "abc-123" resolves
the pending query registered as "corr-abc-123-trace" via substring
containment. -/
theorem c4_witness :
    (JsVal.vstr "abc-123").truthy = true ∧
    specMatch wTableC4 (.vstr "abc-123") = some "corr-abc-123-trace" ∧
    ((resolvePending wTableC4 (.vstr "abc-123") bareFrameC4).1 =
       mapDelete wTableC4 "corr-abc-123-trace" ∧
     resolvedPairs
         (resolvePending wTableC4 (.vstr "abc-123") bareFrameC4).2 =
       [("corr-abc-123-trace", bareFrameC4)]) :=
  ⟨by decide, by decide,
   (c4_matching_order wTableC4 (.vstr "abc-123") bareFrameC4
      (by decide)).1 "corr-abc-123-trace" (by decide)⟩

/-- Claim C5, counterexample: the claim says a resolve call whose token
is absent from the pending table is a no-op, but the substring fallback
makes a call with the absent token "xyz" complete the pending query
registered as "corr-xyz-trace" and mutate the table. -/
theorem c5_counterexample :
    mapHas cxTableC5 "xyz" = false ∧
    resolvedKeys (resolvePending cxTableC5 (.vstr "xyz") cxRespC5).2 =
      ["corr-xyz-trace"] ∧
    (resolvePending cxTableC5 (.vstr "xyz") cxRespC5).1 = [] := by
  decide

/-- Claim C5 (amended): a resolve call whose token matches no pending
entry under any of the three tiers (exact, string-coerced, substring) is
a no-op - the table is unchanged and no completion handle is invoked
(the model is a total function, so no exception is possible).  The
reject half of the original claim holds as stated: the only per-token
reject in the source is the has()-guarded timeout closure, and firing
it with a token absent from the table (already resolved, timed out, or
never registered) is a no-op that rejects nothing, so a second reject
on the same token is always a no-op.  Across any sequence of resolve
calls the resolved keys are pairwise distinct, so each registered
completion handle is invoked at most once.  A resolve with a token
absent from the table can, however, still complete a different pending
entry via the substring fallback. -/
theorem c5_resolve_idempotent :
    (∀ (tb : Table) (v : JsVal) (r : Frame), v.truthy = true →
       specMatch tb v = none →
       (resolvePending tb v r).1 = tb ∧
       resolvedKeys (resolvePending tb v r).2 = [] ∧
       rejectedKeys (resolvePending tb v r).2 = []) ∧
    (∀ (tb : Table) (t : String), mapHas tb t = false →
       fireTimeout tb t = (tb, [])) ∧
    (∀ (tb : Table) (t : String),
       fireTimeout (fireTimeout tb t).1 t =
         ((fireTimeout tb t).1, [])) ∧
    (∀ (tb : Table) (calls : List (JsVal × Frame)),
       (resolvedKeys (runResolves tb calls).2).Nodup) := by
  refine ⟨?_, ?_, ?_, ?_⟩
  · intro tb v r htr h0
    obtain ⟨hh, hf⟩ := specMatch_none_elim tb v h0
    rw [resolvePending_noMatch tb v r htr hh hf]
    by_cases he : tb.isEmpty = true <;>
      simp [he, resolvedKeys, resolvedPairs, rejectedKeys]
  · intro tb t ha
    simp [fireTimeout, ha]
  · intro tb t
    by_cases hh : mapHas tb t = true
    · simp [fireTimeout, hh, mapHas_mapDelete_self]
    · have hh2 : mapHas tb t = false := by simpa using hh
      simp [fireTimeout, hh2]
  · intro tb calls
    exact runResolves_keys_nodup calls tb

/-- Witness for C5: a resolve call with the unmatched token "zzz" is a
no-op on a non-empty table; a timeout reject for the absent token "zzz"
is a no-op; firing the timeout for "alpha" twice rejects only once; and
resolving the same token twice invokes the completion at most once. -/
theorem c5_witness :
    ((JsVal.vstr "zzz").truthy = true ∧
     specMatch wTableC5 (.vstr "zzz") = none ∧
     ((resolvePending wTableC5 (.vstr "zzz") cxRespC5).1 = wTableC5 ∧
      resolvedKeys (resolvePending wTableC5 (.vstr "zzz") cxRespC5).2 = [] ∧
      rejectedKeys (resolvePending wTableC5 (.vstr "zzz") cxRespC5).2 = [])) ∧
    (mapHas wTableC5 "zzz" = false ∧
     fireTimeout wTableC5 "zzz" = (wTableC5, [])) ∧
    fireTimeout (fireTimeout wTableC5 "alpha").1 "alpha" =
      ((fireTimeout wTableC5 "alpha").1, []) ∧
    (resolvedKeys (runResolves wTableC5
        [(.vstr "alpha", cxRespC5), (.vstr "alpha", cxRespC5)]).2).Nodup :=
  ⟨⟨by decide, by decide,
    c5_resolve_idempotent.1 wTableC5 (.vstr "zzz") cxRespC5
      (by decide) (by decide)⟩,
   ⟨by decide, c5_resolve_idempotent.2.1 wTableC5 "zzz" (by decide)⟩,
   c5_resolve_idempotent.2.2.1 wTableC5 "alpha",
   c5_resolve_idempotent.2.2.2 wTableC5
     [(.vstr "alpha", cxRespC5), (.vstr "alpha", cxRespC5)]⟩

/-- Claim C6, counterexample: the claim says every pending query is
rejected with a connection-closed failure on disconnect, but the sole
pending query "tok-c6" receives neither a reject nor a resolve - its
entry is silently discarded from the cleared table. -/
theorem c6_counterexample :
    mapKeys cxStateC6.pendingRequests = ["tok-c6"] ∧
    rejectedKeys (disconnect cxStateC6).2 = [] ∧
    resolvedKeys (disconnect cxStateC6).2 = [] ∧
    (disconnect cxStateC6).1.pendingRequests = [] := by
  decide

/-- Claim C6 (amended): disconnect stops the heartbeat, closes and
nulls the socket, clears the connected flag and clears the pending map
WITHOUT invoking any completion handle - pending queries are discarded,
not rejected; after the clear even a firing timeout settles nothing. -/
theorem c6_disconnect_discards (s : ClientState) :
    (disconnect s).1.pendingRequests = [] ∧
    (disconnect s).1.isConnected = false ∧
    (disconnect s).1.ws = none ∧
    (disconnect s).1.heartbeatOn = false ∧
    rejectedKeys (disconnect s).2 = [] ∧
    resolvedKeys (disconnect s).2 = [] ∧
    (∀ t, fireTimeout (disconnect s).1.pendingRequests t
        = ((disconnect s).1.pendingRequests, [])) := by
  cases hw : s.ws.isSome <;>
    simp [disconnect, hw, rejectedKeys, resolvedKeys, resolvedPairs,
          fireTimeout, mapHas, mapGet]

/-- Claim C7, counterexample: with the attempt counter at the maximum
and the query "tok-c7" still pending, `handleReconnect` only logs and
emits the terminal event - no pending query is rejected and the table
is untouched. -/
theorem c7_counterexample :
    cxStateC7.reconnectAttempts = cxStateC7.maxReconnectAttempts ∧
    mapKeys cxStateC7.pendingRequests = ["tok-c7"] ∧
    rejectedKeys (handleReconnect cxStateC7).2 = [] ∧
    resolvedKeys (handleReconnect cxStateC7).2 = [] ∧
    (handleReconnect cxStateC7).1 = cxStateC7 := by
  decide

/-- Claim C7 (amended): once the reconnect attempts reach the maximum,
the client logs, emits the terminal `maxReconnectReached` event and
stops; the pending table is NOT drained - the state (including every
pending query) is unchanged and no completion handle is invoked.  Each
pending query is only completed later when its own request timeout
fires, with a timeout error rather than a connection-failed error. -/
theorem c7_max_reconnect (s : ClientState)
    (h : s.maxReconnectAttempts ≤ s.reconnectAttempts) :
    handleReconnect s =
      (s, [Effect.log "maxReconnectReached",
           Effect.emit "maxReconnectReached"]) ∧
    rejectedKeys (handleReconnect s).2 = [] ∧
    resolvedKeys (handleReconnect s).2 = [] ∧
    (∀ t, mapHas s.pendingRequests t = true →
       (fireTimeout s.pendingRequests t).2 =
         [Effect.log "requestTimeout",
          Effect.rejectKey t "Request timeout - Myra did not respond"]) := by
  have hmain : handleReconnect s =
      (s, [Effect.log "maxReconnectReached",
           Effect.emit "maxReconnectReached"]) := by
    simp [handleReconnect, h]
  refine ⟨hmain, ?_, ?_, ?_⟩
  · rw [hmain]; simp [rejectedKeys]
  · rw [hmain]; simp [resolvedKeys, resolvedPairs]
  · intro t ht
    simp [fireTimeout, ht]

/-- Witness for C7: the exhausted client from the counterexample
instantiates the amended claim. -/
theorem c7_witness :
    cxStateC7.maxReconnectAttempts ≤ cxStateC7.reconnectAttempts ∧
    (handleReconnect cxStateC7 =
       (cxStateC7, [Effect.log "maxReconnectReached",
                    Effect.emit "maxReconnectReached"]) ∧
     rejectedKeys (handleReconnect cxStateC7).2 = [] ∧
     resolvedKeys (handleReconnect cxStateC7).2 = [] ∧
     (∀ t, mapHas cxStateC7.pendingRequests t = true →
        (fireTimeout cxStateC7.pendingRequests t).2 =
          [Effect.log "requestTimeout",
           Effect.rejectKey t "Request timeout - Myra did not respond"])) :=
  ⟨by decide, c7_max_reconnect cxStateC7 (by decide)⟩

/-- Claim C8, counterexample: `newChat` invoked on a disconnected
client does not call connect - it fails immediately: the state is
unchanged (no socket is created, nothing is registered) and the caller
is rejected with a not-connected error. -/
theorem c8_counterexample :
    cxStateC8.isConnected = false ∧
    newChat cxStateC8 "find hotels" 500 hdrs0 =
      (cxStateC8,
       [Effect.log "cannotSendNotConnected",
        Effect.rejectCaller "WebSocket not connected"]) := by
  decide

/-- Claim C8 (amended): `newChat` and `postMessage` hand their payload
straight to `send` without ensuring connection: while disconnected they
reject immediately with a not-connected error, registering nothing and
creating no socket; when connected with an OPEN socket, the token is
registered in the pending table and its timeout scheduled BEFORE the
frame is handed to the socket, and the completion future is returned. -/
theorem c8_send_behavior :
    (∀ (s : ClientState) (msg : String) (now : Nat) (h : Headers),
       s.isConnected = false →
       newChat s msg now h =
         (s, [Effect.log "cannotSendNotConnected",
              Effect.rejectCaller "WebSocket not connected"])) ∧
    (∀ (s : ClientState) (cid msg : String) (now : Nat) (h : Headers),
       s.isConnected = false →
       postMessage s cid msg now h =
         (s, [Effect.log "cannotSendNotConnected",
              Effect.rejectCaller "WebSocket not connected"])) ∧
    (∀ (s : ClientState) (msg : String) (now : Nat) (h : Headers)
       (sock : Socket),
       s.isConnected = true → s.ws = some sock → sock.readyState = 1 →
       newChat s msg now h =
         ({ s with pendingRequests :=
              mapSet s.pendingRequests (Nat.repr now) ⟨now, none, none⟩ },
          [Effect.register (Nat.repr now),
           Effect.log "storedPendingRequest",
           Effect.scheduleTimeout (Nat.repr now),
           Effect.log "sendingToMyra", Effect.wsSend "NEW_CHAT"])) ∧
    (∀ (s : ClientState) (cid msg : String) (now : Nat) (h : Headers)
       (sock : Socket),
       s.isConnected = true → s.ws = some sock → sock.readyState = 1 →
       postMessage s cid msg now h =
         ({ s with pendingRequests :=
              mapSet s.pendingRequests (Nat.repr now) ⟨now, none, none⟩ },
          [Effect.register (Nat.repr now),
           Effect.log "storedPendingRequest",
           Effect.scheduleTimeout (Nat.repr now),
           Effect.log "sendingToMyra", Effect.wsSend "POST_MESSAGE"])) := by
  refine ⟨?_, ?_, ?_, ?_⟩
  · intro s msg now h hc
    simp [newChat, send, hc]
  · intro s cid msg now h hc
    simp [postMessage, send, hc]
  · intro s msg now h sock hc hw hr
    have hne : (Nat.repr now == "") = false := by
      simp [natRepr_ne_empty now]
    simp [newChat, send, hc, hw, hr, buildNewChatPayload,
          tempIdOfPayload, hne]
  · intro s cid msg now h sock hc hw hr
    have hne : (Nat.repr now == "") = false := by
      simp [natRepr_ne_empty now]
    simp [postMessage, send, hc, hw, hr, buildPostMessagePayload,
          tempIdOfPayload, hne]

/-- Witness for C8: concrete disconnected and connected clients, with
both `newChat` and `postMessage` exercised on the connected one. -/
theorem c8_witness :
    (cxStateC8.isConnected = false ∧
     newChat cxStateC8 "more hotels" 600 hdrs0 =
       (cxStateC8,
        [Effect.log "cannotSendNotConnected",
         Effect.rejectCaller "WebSocket not connected"])) ∧
    (wStateC8.isConnected = true ∧
     newChat wStateC8 "find hotels" 900 hdrs0 =
       ({ wStateC8 with pendingRequests :=
            (mapSet wStateC8.pendingRequests (Nat.repr 900)
              ⟨900, none, none⟩) },
        [Effect.register (Nat.repr 900),
         Effect.log "storedPendingRequest",
         Effect.scheduleTimeout (Nat.repr 900),
         Effect.log "sendingToMyra", Effect.wsSend "NEW_CHAT"])) ∧
    postMessage wStateC8 "conv-9" "more options" 901 hdrs0 =
      ({ wStateC8 with pendingRequests :=
           (mapSet wStateC8.pendingRequests (Nat.repr 901)
             ⟨901, none, none⟩) },
       [Effect.register (Nat.repr 901),
        Effect.log "storedPendingRequest",
        Effect.scheduleTimeout (Nat.repr 901),
        Effect.log "sendingToMyra", Effect.wsSend "POST_MESSAGE"]) :=
  ⟨⟨by decide,
    c8_send_behavior.1 cxStateC8 "more hotels" 600 hdrs0 (by decide)⟩,
   ⟨by decide,
    c8_send_behavior.2.2.1 wStateC8 "find hotels" 900 hdrs0 ⟨0, 1⟩
      (by decide) (by decide) (by decide)⟩,
   c8_send_behavior.2.2.2 wStateC8 "conv-9" "more options" 901 hdrs0
     ⟨0, 1⟩ (by decide) (by decide) (by decide)⟩

theorem digitsRev_eq (n : Nat) :
    digitsRev n = Nat.digitChar (n % 10) ::
      (if n / 10 = 0 then [] else digitsRev (n / 10)) := by
  conv_lhs => rw [digitsRev]

theorem digitsRev_ne_nil (n : Nat) : digitsRev n ≠ [] := by
  rw [digitsRev_eq]
  simp

theorem toDigitsCore_eq_digitsRev (fuel : Nat) :
    ∀ (n : Nat) (acc : List Char), n < fuel →
      Nat.toDigitsCore 10 fuel n acc = (digitsRev n).reverse ++ acc := by
  induction fuel with
  | zero => intro n acc h; omega
  | succ f ih =>
    intro n acc h
    by_cases h2 : n / 10 = 0
    · simp only [Nat.toDigitsCore, h2, if_true]
      rw [digitsRev_eq, h2]
      simp
    · simp only [Nat.toDigitsCore, h2, if_false]
      have hn0 : n ≠ 0 := by
        intro hc
        rw [hc] at h2
        simp at h2
      have hlt : n / 10 < f := by
        have hdlt : n / 10 < n :=
          Nat.div_lt_self (Nat.pos_of_ne_zero hn0) (by decide)
        omega
      rw [ih (n / 10) (Nat.digitChar (n % 10) :: acc) hlt]
      rw [digitsRev_eq n, if_neg h2]
      simp

theorem digitChar_inj_lt (a b : Nat) (ha : a < 10) (hb : b < 10)
    (h : Nat.digitChar a = Nat.digitChar b) : a = b := by
  have hall : ∀ x : Nat, x < 10 → ∀ y : Nat, y < 10 →
      Nat.digitChar x = Nat.digitChar y → x = y := by decide
  exact hall a ha b hb h

theorem digitsRev_inj :
    ∀ m n : Nat, digitsRev m = digitsRev n → m = n := by
  intro m
  induction m using Nat.strong_induction_on with
  | _ m ih =>
    intro n h
    rw [digitsRev_eq m, digitsRev_eq n] at h
    injection h with h1 h2
    have hmod : m % 10 = n % 10 :=
      digitChar_inj_lt (m % 10) (n % 10)
        (Nat.mod_lt m (by decide)) (Nat.mod_lt n (by decide)) h1
    by_cases hm : m / 10 = 0 <;> by_cases hn : n / 10 = 0
    · omega
    · rw [if_pos hm, if_neg hn] at h2
      exact absurd h2.symm (digitsRev_ne_nil _)
    · rw [if_neg hm, if_pos hn] at h2
      exact absurd h2 (digitsRev_ne_nil _)
    · rw [if_neg hm, if_neg hn] at h2
      have hmne : m ≠ 0 := by
        intro hc
        rw [hc] at hm
        simp at hm
      have hdiv : m / 10 = n / 10 :=
        ih (m / 10)
          (Nat.div_lt_self (Nat.pos_of_ne_zero hmne) (by decide))
          (n / 10) h2
      omega

theorem natRepr_inj (m n : Nat) (h : Nat.repr m = Nat.repr n) :
    m = n := by
  have hd : Nat.toDigits 10 m = Nat.toDigits 10 n := by
    have h2 := congrArg String.data h
    simpa [Nat.repr, List.asString] using h2
  have hm : Nat.toDigits 10 m = (digitsRev m).reverse := by
    have h3 := toDigitsCore_eq_digitsRev (m + 1) m [] (Nat.lt_succ_self m)
    simpa [Nat.toDigits] using h3
  have hn : Nat.toDigits 10 n = (digitsRev n).reverse := by
    have h3 := toDigitsCore_eq_digitsRev (n + 1) n [] (Nat.lt_succ_self n)
    simpa [Nat.toDigits] using h3
  rw [hm, hn] at hd
  exact digitsRev_inj m n (List.reverse_injective hd)

theorem mapSet_length_of_has (tb : Table) (k : String) (v : PendingEntry)
    (h : mapHas tb k = true) : (mapSet tb k v).length = tb.length := by
  simp [mapSet, h]

/-- Claim C9, counterexample: the correlation token is just the
millisecond timestamp, so a continuation payload built in the same
millisecond as an in-flight new-conversation payload carries the very
token that is currently pending - and registering it leaves the table
at size one, displacing the first entry rather than adding a second. -/
theorem c9_counterexample :
    tempIdOfPayload (buildNewChatPayload "find hotels" 1714 hdrs0) =
      some "1714" ∧
    tempIdOfPayload (buildPostMessagePayload "conv-1" "more" 1714 hdrs0) =
      some "1714" ∧
    mapHas (newChat wStateC8 "find hotels" 1714 hdrs0).1.pendingRequests
      "1714" = true ∧
    (newChat wStateC8 "find hotels" 1714 hdrs0).1.pendingRequests.length
      = 1 ∧
    (postMessage (newChat wStateC8 "find hotels" 1714 hdrs0).1
        "conv-1" "more" 1714 hdrs0).1.pendingRequests.length = 1 := by
  decide

/-- Claim C9 (amended): the token of every encoder payload is exactly
the decimal string of its `Date.now()` millisecond reading; payloads
built at distinct milliseconds carry distinct tokens, but payloads
built within the same millisecond share one token - and registering the
second under the shared key replaces the first entry in place (the
table does not grow), orphaning the first completion handle. -/
theorem c9_token_collision :
    (∀ (msg : String) (now : Nat) (h : Headers),
       tempIdOfPayload (buildNewChatPayload msg now h) =
         some (Nat.repr now)) ∧
    (∀ (cid msg : String) (now : Nat) (h : Headers),
       tempIdOfPayload (buildPostMessagePayload cid msg now h) =
         some (Nat.repr now)) ∧
    (∀ (m1 m2 cid : String) (n1 n2 : Nat) (h1 h2 : Headers),
       n1 ≠ n2 →
       tempIdOfPayload (buildNewChatPayload m1 n1 h1) ≠
         tempIdOfPayload (buildPostMessagePayload cid m2 n2 h2)) ∧
    (∀ (m1 m2 cid : String) (now : Nat) (h1 h2 : Headers),
       tempIdOfPayload (buildNewChatPayload m1 now h1) =
         tempIdOfPayload (buildPostMessagePayload cid m2 now h2)) ∧
    (∀ (tb : Table) (k : String) (v : PendingEntry),
       mapHas tb k = true →
       (mapSet tb k v).length = tb.length ∧
       mapGet (mapSet tb k v) k = some v) := by
  refine ⟨?_, ?_, ?_, ?_, ?_⟩
  · intro msg now h
    simp [tempIdOfPayload, buildNewChatPayload]
  · intro cid msg now h
    simp [tempIdOfPayload, buildPostMessagePayload]
  · intro m1 m2 cid n1 n2 h1 h2 hne hc
    simp [tempIdOfPayload, buildNewChatPayload,
          buildPostMessagePayload] at hc
    exact hne (natRepr_inj n1 n2 hc)
  · intro m1 m2 cid now h1 h2
    simp [tempIdOfPayload, buildNewChatPayload, buildPostMessagePayload]
  · intro tb k v hh
    exact ⟨mapSet_length_of_has tb k v hh, mapGet_mapSet_self tb k v⟩

/-- Witness for C9: distinct milliseconds 41 and 42 give distinct
tokens; equal millisecond 41 gives a shared token; re-registering a
present key keeps the table size. -/
theorem c9_witness :
    ((41 : Nat) ≠ 42 ∧
     tempIdOfPayload (buildNewChatPayload "a" 41 hdrs0) ≠
       tempIdOfPayload (buildPostMessagePayload "c" "b" 42 hdrs0)) ∧
    tempIdOfPayload (buildNewChatPayload "a" 41 hdrs0) =
      tempIdOfPayload (buildPostMessagePayload "c" "b" 41 hdrs0) ∧
    (mapHas wTableC5 "alpha" = true ∧
     (mapSet wTableC5 "alpha" entry0).length = wTableC5.length ∧
     mapGet (mapSet wTableC5 "alpha" entry0) "alpha" = some entry0) :=
  ⟨⟨by decide,
    c9_token_collision.2.2.1 "a" "b" "c" 41 42 hdrs0 hdrs0 (by decide)⟩,
   c9_token_collision.2.2.2.1 "a" "b" "c" 41 hdrs0 hdrs0,
   ⟨by decide,
    c9_token_collision.2.2.2.2 wTableC5 "alpha" entry0 (by decide)⟩⟩

/-- Claim C10: `connect` completes immediately and without side effects
exactly in the already-connected state; invoked while a previous
attempt is still in progress (a socket stored, `isConnected` false) it
unconditionally creates a second WebSocket and replaces the stored
socket reference. -/
theorem c10_connect_idempotence (s : ClientState) :
    (s.isConnected = true → connect s = (s, [Effect.resolveCaller])) ∧
    (s.isConnected = false →
       (connect s).1.ws = some ⟨s.nextSocketId, 0⟩ ∧
       (connect s).2 =
         [Effect.log "connecting", Effect.createSocket s.nextSocketId] ∧
       (∀ sock : Socket, s.ws = some sock →
          sock.id < s.nextSocketId → (connect s).1.ws ≠ s.ws)) := by
  constructor
  · intro hc
    simp [connect, hc]
  · intro hc
    refine ⟨by simp [connect, hc], by simp [connect, hc], ?_⟩
    intro sock hw hlt hc2
    rw [hw] at hc2
    simp [connect, hc] at hc2
    have : sock.id = s.nextSocketId := by
      rw [← hc2]
    omega

/-- Witness for C10: a client mid-connection (socket 0 stored, not yet
open) gets a second socket that replaces the stored reference. -/
theorem c10_witness :
    wStateC10.isConnected = false ∧
    ((connect wStateC10).1.ws = some ⟨1, 0⟩ ∧
     (connect wStateC10).2 =
       [Effect.log "connecting", Effect.createSocket 1] ∧
     (connect wStateC10).1.ws ≠ wStateC10.ws) :=
  ⟨by decide,
   ⟨((c10_connect_idempotence wStateC10).2 (by decide)).1,
    ((c10_connect_idempotence wStateC10).2 (by decide)).2.1,
    ((c10_connect_idempotence wStateC10).2 (by decide)).2.2 ⟨0, 0⟩
      (by decide) (by decide)⟩⟩

end MyraConnect
